import Mathlib

/-!
Shallow embedding of the task_control_fapi repository (src/app): the relational
data model (src/app/models), the repositories (src/app/repository), and the
services (src/app/services), together with theorems settling the frozen claims.

Conventions of the embedding:
* timestamps (datetime values) are modelled as `Nat`;
* the relational store is a `DB` record of lists, one per table, with explicit
  autoincrement counters; `session.add` followed by `flush` is modelled as
  appending a row with the next id;
* a repository or service coroutine that can raise becomes a function returning
  `(Except ExcVal A) × DB`: the `Except` carries either the return value or the
  exception object that propagates to the caller, and the `DB` component is the
  state of the store after the call (a transaction rollback restores the
  original state);
* Python exception construction is dynamically checked: each class in
  src/app/tools/exceptions.py gets a `call...` function taking the list of
  positional arguments actually supplied at the call site, returning either the
  constructed exception value or a `TypeError` when the number of arguments
  does not match the required parameters of its `__init__`.
-/

namespace TaskControlFapi

/-! ### Data model (src/app/models) -/

/-- A row of the `work_centers` table (src/app/models/wc.py). -/
structure WorkCenter where
  id : Nat
  name : String
deriving Repr, DecidableEq

/-- A row of the `brigade` table (src/app/models/brigade.py). -/
structure Brigade where
  id : Nat
  name : String
deriving Repr, DecidableEq

/-- A row of the `tasks` table (src/app/models/task.py). -/
structure TaskRow where
  id : Nat
  status_close : Bool
  closed_date : Option Nat
  task_description : Option String
  shift : Option String
  shift_start : Nat
  shift_end : Nat
  batch_number : Int
  batch_date : Nat
  brigade_id : Nat
  work_center_id : Nat
deriving Repr, DecidableEq

/-- A row of the `product` table (src/app/models/product.py).  The column
`nomenclature` has the Python-side default "Изделие", applied when the
constructor is called without that keyword. -/
structure ProductRow where
  id : Nat
  nomenclature : Option String
  ekn_code : Option String
  is_aggregated : Bool
  aggregated_at : Option Nat
  task_id : Option Nat
deriving Repr, DecidableEq

/-- The relational store: the four tables plus one autoincrement counter per
table. -/
structure DB where
  work_centers : List WorkCenter
  brigade : List Brigade
  tasks : List TaskRow
  products : List ProductRow
  next_wc_id : Nat
  next_brigade_id : Nat
  next_task_id : Nat
  next_product_id : Nat
deriving Repr, DecidableEq

/-- The empty store. -/
def DB.empty : DB :=
  { work_centers := [], brigade := [], tasks := [], products := []
    next_wc_id := 1, next_brigade_id := 1, next_task_id := 1, next_product_id := 1 }

/-! ### Exceptions (src/app/tools/exceptions.py) -/

/-- A Python value passed as a positional argument to an exception
constructor. -/
inductive PyVal where
  | str : String → PyVal
  | int : Int → PyVal
deriving Repr, DecidableEq

/-- A Python exception object as seen by a caller.  The first six
constructors mirror the classes of src/app/tools/exceptions.py; `typeError`
models the `TypeError` raised when a constructor is called with the wrong
number of positional arguments; `attributeError` models attribute lookup
failure; `httpException` models fastapi.HTTPException. -/
inductive ExcVal where
  | taskNotFound (message : PyVal)
  | validationError (message : PyVal) (field : Option PyVal)
  | productNotFound (ekn_code : PyVal)
  | productWrongBatch (current_task_id : PyVal) (expected_task_id : PyVal)
  | productAlreadyAggregated (ekn_code : PyVal) (aggregated_at : PyVal)
  | repositoryExc (message : PyVal) (operation : PyVal)
  | typeError (className : String)
  | attributeError (attrName : String)
  | keyError (key : String)
  | httpException (status_code : Nat) (detail : String)
deriving Repr, DecidableEq

/-- Source `TaskNotFoundException(args)`: `__init__(self, message = "Задача не найдена")`,
zero required positional parameters (exceptions.py:5-13). -/
def callTaskNotFoundException : List PyVal → ExcVal
  | [] => .taskNotFound (.str "Задача не найдена")
  | [m] => .taskNotFound m
  | _ => .typeError "TaskNotFoundException"

/-- Source `ValidationError(args)`: `__init__(self, message, field = None)`, one
required positional parameter (exceptions.py:16-27). -/
def callValidationError : List PyVal → ExcVal
  | [m] => .validationError m none
  | [m, f] => .validationError m (some f)
  | _ => .typeError "ValidationError"

/-- Source `ProductNotFoundException(args)`: `__init__(self, ekn_code)`, one required
positional parameter (exceptions.py:30-40). -/
def callProductNotFoundException : List PyVal → ExcVal
  | [e] => .productNotFound e
  | _ => .typeError "ProductNotFoundException"

/-- Source `ProductWrongBatchException(args)`: `__init__(self, current_task_id,
expected_task_id)`, two required positional parameters (exceptions.py:43-55). -/
def callProductWrongBatchException : List PyVal → ExcVal
  | [c, e] => .productWrongBatch c e
  | _ => .typeError "ProductWrongBatchException"

/-- Source `ProductAlreadyAggregatedException(args)`: `__init__(self, ekn_code,
aggregated_at)`, two required positional parameters (exceptions.py:58-70). -/
def callProductAlreadyAggregatedException : List PyVal → ExcVal
  | [e, a] => .productAlreadyAggregated e a
  | _ => .typeError "ProductAlreadyAggregatedException"

/-- Source `RepositoryException(args)`: `__init__(self, message, operation)`, two
required positional parameters (exceptions.py:91-101). -/
def callRepositoryException : List PyVal → ExcVal
  | [m, op] => .repositoryExc m op
  | _ => .typeError "RepositoryException"

/-! ### ProductRepository.aggregate_product (src/app/repository/product_repo.py:153-203) -/

namespace ProductRepository

/-- The `try` block of `aggregate_product`: look the product up by
`ekn_code`, check batch ownership and aggregation state, then set
`is_aggregated = True`, `aggregated_at = now` and commit.  Each `raise`
inside the block constructs its exception with exactly the positional
arguments of the source call site (one f-string each, at
product_repo.py:180, 184-186, 190-192). -/
def aggregate_product_body (db : DB) (task_id : Nat) (ekn_code : String) (now : Nat) :
    (Except ExcVal String) × DB :=
  match db.products.find? (fun p => p.ekn_code == some ekn_code) with
  | none =>
      (.error (callProductNotFoundException
        [.str ("Продукт с кодом " ++ ekn_code ++ " не найден")]), db)
  | some product =>
      if product.task_id ≠ some task_id then
        (.error (callProductWrongBatchException
          [.str "Продукт привязан к другой партии"]), db)
      else if product.is_aggregated then
        (.error (callProductAlreadyAggregatedException
          [.str "Продукт уже был агрегирован"]), db)
      else
        let updated : ProductRow :=
          { product with is_aggregated := true, aggregated_at := some now }
        (.ok ekn_code,
         { db with products :=
            db.products.map (fun p => if p.id = product.id then updated else p) })

/-- Source `aggregate_product(task_id, ekn_code)`: the `try` body above, wrapped by
`except Exception as e: rollback; raise RepositoryException(f"...")`
(product_repo.py:199-203).  The `except` clause catches every exception the
body raises, including the three domain exceptions, and then calls
`RepositoryException` with a single positional argument, which raises
`TypeError` (its `__init__` requires `message` and `operation`). -/
def aggregate_product (db : DB) (task_id : Nat) (ekn_code : String) (now : Nat) :
    (Except ExcVal String) × DB :=
  match aggregate_product_body db task_id ekn_code now with
  | (.ok r, db2) => (.ok r, db2)
  | (.error _, _) =>
      (.error (callRepositoryException [.str "Не удалось агрегировать продукт"]), db)

end ProductRepository

/-! ### ProductService.aggregate_product (src/app/services/product_service.py:66-95) -/

namespace ProductService

/-- Source `ProductService.aggregate_product`: delegates to the repository and
translates exceptions to `HTTPException` (404 for `ProductNotFoundException`,
400 for `ProductWrongBatchException` and `ProductAlreadyAggregatedException`,
500 for anything else). -/
def aggregate_product (db : DB) (task_id : Nat) (ekn_code : String) (now : Nat) :
    (Except ExcVal String) × DB :=
  match ProductRepository.aggregate_product db task_id ekn_code now with
  | (.ok r, db2) => (.ok r, db2)
  | (.error e, db2) =>
      match e with
      | .productNotFound _ => (.error (.httpException 404 "Продукт не найден"), db2)
      | .productWrongBatch _ _ => (.error (.httpException 400 "Ошибка агрегации"), db2)
      | .productAlreadyAggregated _ _ =>
          (.error (.httpException 400 "Ошибка агрегации"), db2)
      | _ => (.error (.httpException 500 "Internal server error"), db2)

end ProductService

/-! ### Concrete stores used to evaluate aggregation failures -/

/-- A store with no product at all. -/
def dbAggNoProduct : DB := DB.empty

/-- A store whose single product "EKN123" belongs to task 2. -/
def dbAggWrongTask : DB :=
  { DB.empty with
    products := [{ id := 1, nomenclature := some "Изделие", ekn_code := some "EKN123"
                   is_aggregated := false, aggregated_at := none, task_id := some 2 }]
    next_product_id := 2 }

/-- A store whose single product "EKN123" belongs to task 1 and is already
aggregated (at time 50). -/
def dbAggAlready : DB :=
  { DB.empty with
    products := [{ id := 1, nomenclature := some "Изделие", ekn_code := some "EKN123"
                   is_aggregated := true, aggregated_at := some 50, task_id := some 1 }]
    next_product_id := 2 }

/-- Claim C1: aggregating a missing product was claimed to fail with
`ProductNotFound`, a product of another task with `ProductWrongBatch`, an
already aggregated product with `ProductAlreadyAggregated` carrying the
original timestamp, with no other exception type surfaced.  Evaluating the
code: in all three failure scenarios the repository surfaces
`TypeError` (the `except Exception` clause of `aggregate_product` rewraps the
domain exception by calling `RepositoryException` with one positional
argument, which itself fails to construct), and the service therefore
answers HTTP 500 instead of 404/400. -/
theorem C1_aggregate_failures_surface_TypeError_and_500 :
    (ProductRepository.aggregate_product dbAggNoProduct 1 "EKN123" 100).1
        = .error (.typeError "RepositoryException")
    ∧ (ProductRepository.aggregate_product dbAggWrongTask 1 "EKN123" 100).1
        = .error (.typeError "RepositoryException")
    ∧ (ProductRepository.aggregate_product dbAggAlready 1 "EKN123" 100).1
        = .error (.typeError "RepositoryException")
    ∧ (ProductService.aggregate_product dbAggNoProduct 1 "EKN123" 100).1
        = .error (.httpException 500 "Internal server error")
    ∧ (ProductService.aggregate_product dbAggWrongTask 1 "EKN123" 100).1
        = .error (.httpException 500 "Internal server error")
    ∧ (ProductService.aggregate_product dbAggAlready 1 "EKN123" 100).1
        = .error (.httpException 500 "Internal server error") :=
  ⟨rfl, rfl, rfl, rfl, rfl, rfl⟩

/-! ### ProductRepository.add_products_to_batches (src/app/repository/product_repo.py:98-152) -/

namespace ProductRepository

/-- One entry of the `products_data` list: the mandatory keys "ekn_code",
"batch_number" and "batch_date".  `batch_date` is the result of
`datetime.fromisoformat(batch_date_str)`: `none` models a string the parser
rejects (the source logs and continues with the next entry). -/
structure BatchEntry where
  ekn_code : String
  batch_number : Int
  batch_date : Option Nat
deriving Repr, DecidableEq

/-- One iteration of the `add_products_to_batches` loop on the store: parse
the date (an unparseable date skips the entry), find the task by
`(batch_number, batch_date)` (skip the entry when absent), then either create
the product attached to that task (when no product carries the `ekn_code`) or
reassign the existing product's `task_id`. -/
def add_products_step (db : DB) (e : BatchEntry) : DB :=
  match e.batch_date with
  | none => db
  | some bd =>
      match db.tasks.find? (fun t =>
          t.batch_number == e.batch_number && t.batch_date == bd) with
      | none => db
      | some task =>
          match db.products.find? (fun p => p.ekn_code == some e.ekn_code) with
          | none =>
              let p : ProductRow :=
                { id := db.next_product_id, nomenclature := some "Изделие"
                  ekn_code := some e.ekn_code, is_aggregated := false
                  aggregated_at := none, task_id := some task.id }
              { db with products := db.products ++ [p]
                        next_product_id := db.next_product_id + 1 }
          | some product =>
              let updated : ProductRow := { product with task_id := some task.id }
              { db with products :=
                  db.products.map (fun q => if q.id = product.id then updated else q) }

/-- The `for product_data in products_data` loop of `add_products_to_batches`
(product_repo.py:111-141), iterating `add_products_step`.  The accumulator
`added_products` of the source is initialised to `[]` at product_repo.py:110
and never appended to anywhere in the loop, so the loop only mutates the
store. -/
def add_products_loop (db : DB) : List BatchEntry → DB
  | [] => db
  | e :: rest => add_products_loop (add_products_step db e) rest

/-- Source `add_products_to_batches(products_data)`: runs the loop above and returns
`added_products`, which is still the empty list it was initialised to
(product_repo.py:110 and 151). -/
def add_products_to_batches (db : DB) (products_data : List BatchEntry) :
    (Except ExcVal (List ProductRow)) × DB :=
  ((.ok []), add_products_loop db products_data)

end ProductRepository

/-- A store with one task (id 1, batch_number 123, batch_date 5) and no
product. -/
def dbBatch : DB :=
  { DB.empty with
    tasks := [{ id := 1, status_close := false, closed_date := none
                task_description := none, shift := none, shift_start := 8
                shift_end := 20, batch_number := 123, batch_date := 5
                brigade_id := 1, work_center_id := 1 }]
    next_task_id := 2 }

/-- Claim C2: `add_products_to_batches` was claimed to return exactly the
products it newly created.  Evaluating the code on an entry whose `ekn_code`
"E1" is new and whose `(batch_number, batch_date)` matches the existing task:
the call does create the product (the store afterwards holds it, attached to
task 1), yet the returned list is empty, because the `added_products`
accumulator is never appended to. -/
theorem C2_add_products_returns_empty_list :
    (ProductRepository.add_products_to_batches dbBatch
        [{ ekn_code := "E1", batch_number := 123, batch_date := some 5 }]).1
      = .ok []
    ∧ ((ProductRepository.add_products_to_batches dbBatch
        [{ ekn_code := "E1", batch_number := 123, batch_date := some 5 }]).2).products
      = [{ id := 1, nomenclature := some "Изделие", ekn_code := some "E1"
           is_aggregated := false, aggregated_at := none, task_id := some 1 }] :=
  ⟨rfl, rfl⟩

/-! ### Wrapping of data-store errors (claim C3)

Every repository method wraps store failures with
`except Exception as e: raise RepositoryException(f"...")`.  The functions
below give, for each method named by the claim, the exception value that the
`except` clause produces when the store raises `e` inside the `try` body: the
single positional argument of the source call site is passed to
`RepositoryException`, whose `__init__` requires both `message` and
`operation`. -/

/-- The `except` clause of `BrigadeRepository.get_or_create_brigade`
(src/app/repository/brigade_repo.py:41-45). -/
def BrigadeRepository.get_or_create_brigade_on_store_error (e : String) : ExcVal :=
  callRepositoryException [.str ("Не удалось получить или создать бригаду: " ++ e)]

/-- The `except` clause of `WorkCenterRepository.get_or_create_work_center`
(src/app/repository/wc_repo.py:45-49). -/
def WorkCenterRepository.get_or_create_work_center_on_store_error (e : String) : ExcVal :=
  callRepositoryException [.str ("Не удалось получить или создать рабочий центр: " ++ e)]

/-- The `except` clause of `ProductRepository.create_product_data`
(src/app/repository/product_repo.py:53-56). -/
def ProductRepository.create_product_data_on_store_error (e : String) : ExcVal :=
  callRepositoryException [.str ("Не удалось создать продукт: " ++ e)]

/-- The `except` clause of `ProductRepository.update_task_products`
(src/app/repository/product_repo.py:92-96). -/
def ProductRepository.update_task_products_on_store_error (e : String) : ExcVal :=
  callRepositoryException [.str ("Не удалось обновить продукты задачи: " ++ e)]

/-- The `except` clause of `TaskRepository._add_task`
(src/app/repository/task_repo.py:383-385). -/
def TaskRepository.add_task_on_store_error (e : String) : ExcVal :=
  callRepositoryException [.str ("Не удалось добавить задачу: " ++ e)]

/-- Claim C3: a data-store error inside a repository operation was claimed to
surface as a `RepositoryException` wrapping the cause and carrying the name of
the attempted operation.  Evaluating the `except` clauses: each one calls
`RepositoryException` with a single positional argument while its `__init__`
requires `(message, operation)`, so what actually propagates to the caller is
`TypeError`, never a `RepositoryException` carrying an operation name. -/
theorem C3_store_errors_surface_TypeError (e : String) :
    BrigadeRepository.get_or_create_brigade_on_store_error e
        = .typeError "RepositoryException"
    ∧ WorkCenterRepository.get_or_create_work_center_on_store_error e
        = .typeError "RepositoryException"
    ∧ ProductRepository.create_product_data_on_store_error e
        = .typeError "RepositoryException"
    ∧ ProductRepository.update_task_products_on_store_error e
        = .typeError "RepositoryException"
    ∧ TaskRepository.add_task_on_store_error e
        = .typeError "RepositoryException" :=
  ⟨rfl, rfl, rfl, rfl, rfl⟩

/-! ### BaseRepository._transaction (src/app/interface/base_repository.py:22-36) -/

/-- The transactional state of a SQLAlchemy `AsyncSession` as far as the
helper observes it: whether `session.in_transaction()` holds, and how many
physical transactions have been begun so far. -/
structure Session where
  in_transaction : Bool
  begins : Nat
deriving Repr, DecidableEq

namespace BaseRepository

/-- Source `_transaction()`: if the session is not inside a transaction, run the body
under `async with self.db.begin()` (one new physical transaction, closed at
exit); if it already is, just yield to the body. -/
def _transaction {α : Type} (s : Session) (body : Session → α × Session) : α × Session :=
  if s.in_transaction then
    body s
  else
    let r := body { in_transaction := true, begins := s.begins + 1 }
    (r.1, { r.2 with in_transaction := false })

end BaseRepository

/-- Claim C9: when the session is already inside a transaction the helper is a
no-op wrapper around its body (it begins no second physical transaction); when
it is not, it begins exactly one — provided the body itself (made of nested
repository calls, which all go through the same helper) begins none once it
runs inside a transaction. -/
theorem C9_transaction_helper_nests (α : Type) (s : Session) (body : Session → α × Session) :
    (s.in_transaction = true → BaseRepository._transaction s body = body s)
    ∧ (s.in_transaction = false →
        (∀ s2, s2.in_transaction = true → ((body s2).2).begins = s2.begins) →
        ((BaseRepository._transaction s body).2).begins = s.begins + 1) := by
  constructor
  · intro h
    simp [BaseRepository._transaction, h]
  · intro h hbody
    simp only [BaseRepository._transaction, h, Bool.false_eq_true, if_false]
    exact hbody { in_transaction := true, begins := s.begins + 1 } rfl

/-- Witness for C9: a session already in a transaction (the helper returns the
body's result unchanged), and a fresh session with a begin-free body (exactly
one physical transaction is begun). -/
theorem C9_transaction_helper_nests_witness :
    (BaseRepository._transaction (⟨true, 3⟩ : Session) (fun s => ((0 : Nat), s))
        = ((0 : Nat), (⟨true, 3⟩ : Session)))
    ∧ ((BaseRepository._transaction (⟨false, 0⟩ : Session)
        (fun s => ((0 : Nat), s))).2).begins = 0 + 1 :=
  ⟨(C9_transaction_helper_nests Nat ⟨true, 3⟩ (fun s => ((0 : Nat), s))).1 rfl,
   (C9_transaction_helper_nests Nat ⟨false, 0⟩ (fun s => ((0 : Nat), s))).2 rfl
     (fun _ _ => rfl)⟩

/-! ### Brigade and work-center get-or-create
(src/app/repository/brigade_repo.py:16-45, src/app/repository/wc_repo.py:20-49) -/

namespace BrigadeRepository

/-- Source `get_or_create_brigade(name)`: select the first brigade matching the name;
if none, insert a new row and flush (the generated id is the next counter
value).  The store-error `except` clause is modelled separately by
`get_or_create_brigade_on_store_error`. -/
def get_or_create_brigade (db : DB) (name : String) : Brigade × DB :=
  match db.brigade.find? (fun b => b.name == name) with
  | some brigade => (brigade, db)
  | none =>
      let brigade : Brigade := { id := db.next_brigade_id, name := name }
      (brigade,
       { db with brigade := db.brigade ++ [brigade]
                 next_brigade_id := db.next_brigade_id + 1 })

end BrigadeRepository

namespace WorkCenterRepository

/-- Source `get_or_create_work_center(name)`: same pattern as the brigade
repository, over the `work_centers` table. -/
def get_or_create_work_center (db : DB) (name : String) : WorkCenter × DB :=
  match db.work_centers.find? (fun w => w.name == name) with
  | some work_center => (work_center, db)
  | none =>
      let work_center : WorkCenter := { id := db.next_wc_id, name := name }
      (work_center,
       { db with work_centers := db.work_centers ++ [work_center]
                 next_wc_id := db.next_wc_id + 1 })

end WorkCenterRepository

/-- A sequence of `n` sequential `get_or_create_brigade(name)` calls,
returning the list of returned entities and the final store. -/
def iterate_get_or_create_brigade (db : DB) (name : String) : Nat → List Brigade × DB
  | 0 => ([], db)
  | n + 1 =>
      let r := BrigadeRepository.get_or_create_brigade db name
      let rest := iterate_get_or_create_brigade r.2 name n
      (r.1 :: rest.1, rest.2)

/-- A sequence of `n` sequential `get_or_create_work_center(name)` calls. -/
def iterate_get_or_create_work_center (db : DB) (name : String) : Nat → List WorkCenter × DB
  | 0 => ([], db)
  | n + 1 =>
      let r := WorkCenterRepository.get_or_create_work_center db name
      let rest := iterate_get_or_create_work_center r.2 name n
      (r.1 :: rest.1, rest.2)

/-- When the filter of a list by `p` is exactly `[b]`, the first element
matching `p` is `b`. -/
theorem find?_of_filter_eq_singleton {α : Type} (p : α → Bool) :
    ∀ (l : List α) (b : α), l.filter p = [b] → l.find? p = some b := by
  intro l
  induction l with
  | nil => intro b h; simp at h
  | cons a t ih =>
      intro b h
      by_cases hp : p a
      · rw [List.filter_cons_of_pos hp] at h
        injection h with h1 _
        rw [List.find?_cons_of_pos _ hp, h1]
      · rw [List.filter_cons_of_neg (by simpa using hp)] at h
        rw [List.find?_cons_of_neg _ (by simpa using hp)]
        exact ih b h

/-- On a store holding exactly one brigade named `name`, `get_or_create_brigade`
returns it and leaves the store unchanged. -/
theorem get_or_create_brigade_of_filter_singleton (db : DB) (name : String) (b : Brigade)
    (h : db.brigade.filter (fun x => x.name == name) = [b]) :
    BrigadeRepository.get_or_create_brigade db name = (b, db) := by
  unfold BrigadeRepository.get_or_create_brigade
  rw [find?_of_filter_eq_singleton _ _ _ h]

/-- On a store holding no brigade named `name`, `get_or_create_brigade`
inserts one with the next generated id. -/
theorem get_or_create_brigade_of_filter_nil (db : DB) (name : String)
    (h : db.brigade.filter (fun x => x.name == name) = []) :
    BrigadeRepository.get_or_create_brigade db name
      = (({ id := db.next_brigade_id, name := name } : Brigade),
         { db with
            brigade := db.brigade ++ [({ id := db.next_brigade_id, name := name } : Brigade)]
            next_brigade_id := db.next_brigade_id + 1 }) := by
  unfold BrigadeRepository.get_or_create_brigade
  have hnone : db.brigade.find? (fun x => x.name == name) = none := by
    rw [List.find?_eq_none]
    intro x hx
    simpa using List.filter_eq_nil_iff.mp h x hx
  rw [hnone]

/-- Once one `get_or_create_brigade` call is a fixed point of the store, every
further call returns the same entity and the same store. -/
theorem iterate_get_or_create_brigade_fixed (db : DB) (name : String) (b : Brigade)
    (h : BrigadeRepository.get_or_create_brigade db name = (b, db)) :
    ∀ n, iterate_get_or_create_brigade db name n = (List.replicate n b, db) := by
  intro n
  induction n with
  | zero => rfl
  | succ m ih =>
      simp [iterate_get_or_create_brigade, h, ih, List.replicate_succ]

/-- Work-center analogue of `get_or_create_brigade_of_filter_singleton`. -/
theorem get_or_create_wc_of_filter_singleton (db : DB) (name : String) (w : WorkCenter)
    (h : db.work_centers.filter (fun x => x.name == name) = [w]) :
    WorkCenterRepository.get_or_create_work_center db name = (w, db) := by
  unfold WorkCenterRepository.get_or_create_work_center
  rw [find?_of_filter_eq_singleton _ _ _ h]

/-- Work-center analogue of `get_or_create_brigade_of_filter_nil`. -/
theorem get_or_create_wc_of_filter_nil (db : DB) (name : String)
    (h : db.work_centers.filter (fun x => x.name == name) = []) :
    WorkCenterRepository.get_or_create_work_center db name
      = (({ id := db.next_wc_id, name := name } : WorkCenter),
         { db with
            work_centers := db.work_centers ++ [({ id := db.next_wc_id, name := name } : WorkCenter)]
            next_wc_id := db.next_wc_id + 1 }) := by
  unfold WorkCenterRepository.get_or_create_work_center
  have hnone : db.work_centers.find? (fun x => x.name == name) = none := by
    rw [List.find?_eq_none]
    intro x hx
    simpa using List.filter_eq_nil_iff.mp h x hx
  rw [hnone]

/-- Work-center analogue of `iterate_get_or_create_brigade_fixed`. -/
theorem iterate_get_or_create_wc_fixed (db : DB) (name : String) (w : WorkCenter)
    (h : WorkCenterRepository.get_or_create_work_center db name = (w, db)) :
    ∀ n, iterate_get_or_create_work_center db name n = (List.replicate n w, db) := by
  intro n
  induction n with
  | zero => rfl
  | succ m ih =>
      simp [iterate_get_or_create_work_center, h, ih, List.replicate_succ]

/-- Claim C8: starting from a store with at most one brigade (and at most one
work center) bearing the name, after any positive number of sequential
`get_or_create` calls exactly one entity with that name exists, and every call
returned one and the same entity (in particular, the same identifier as the
first call). -/
theorem C8_get_or_create_dedup (db : DB) (name : String) (n : Nat)
    (hb : (db.brigade.filter (fun x => x.name == name)).length ≤ 1)
    (hw : (db.work_centers.filter (fun x => x.name == name)).length ≤ 1)
    (hn : 1 ≤ n) :
    ((((iterate_get_or_create_brigade db name n).2).brigade.filter
        (fun x => x.name == name)).length = 1
      ∧ ∃ b0 : Brigade, (iterate_get_or_create_brigade db name n).1 = List.replicate n b0)
    ∧ ((((iterate_get_or_create_work_center db name n).2).work_centers.filter
        (fun x => x.name == name)).length = 1
      ∧ ∃ w0 : WorkCenter, (iterate_get_or_create_work_center db name n).1
          = List.replicate n w0) := by
  obtain ⟨m, rfl⟩ : ∃ m, n = m + 1 := ⟨n - 1, by omega⟩
  constructor
  · rcases Nat.le_one_iff_eq_zero_or_eq_one.mp hb with h0 | h1
    · have hnil := List.length_eq_zero.mp h0
      have hstep := get_or_create_brigade_of_filter_nil db name hnil
      have hfil1 :
          (db.brigade ++ [({ id := db.next_brigade_id, name := name } : Brigade)]).filter
              (fun x => x.name == name)
            = [({ id := db.next_brigade_id, name := name } : Brigade)] := by
        rw [List.filter_append, hnil]
        simp
      have hfix := get_or_create_brigade_of_filter_singleton
        { db with
            brigade := db.brigade ++ [({ id := db.next_brigade_id, name := name } : Brigade)]
            next_brigade_id := db.next_brigade_id + 1 }
        name ({ id := db.next_brigade_id, name := name } : Brigade) hfil1
      have hiter := iterate_get_or_create_brigade_fixed _ name _ hfix m
      refine ⟨?_, ⟨({ id := db.next_brigade_id, name := name } : Brigade), ?_⟩⟩
      · simp [iterate_get_or_create_brigade, hstep, hiter, hfil1]
      · simp [iterate_get_or_create_brigade, hstep, hiter, List.replicate_succ]
    · obtain ⟨b, hbsing⟩ := List.length_eq_one.mp h1
      have hfix := get_or_create_brigade_of_filter_singleton db name b hbsing
      have hiter := iterate_get_or_create_brigade_fixed db name b hfix m
      refine ⟨?_, ⟨b, ?_⟩⟩
      · simp [iterate_get_or_create_brigade, hfix, hiter, hbsing]
      · simp [iterate_get_or_create_brigade, hfix, hiter, List.replicate_succ]
  · rcases Nat.le_one_iff_eq_zero_or_eq_one.mp hw with h0 | h1
    · have hnil := List.length_eq_zero.mp h0
      have hstep := get_or_create_wc_of_filter_nil db name hnil
      have hfil1 :
          (db.work_centers ++ [({ id := db.next_wc_id, name := name } : WorkCenter)]).filter
              (fun x => x.name == name)
            = [({ id := db.next_wc_id, name := name } : WorkCenter)] := by
        rw [List.filter_append, hnil]
        simp
      have hfix := get_or_create_wc_of_filter_singleton
        { db with
            work_centers := db.work_centers ++ [({ id := db.next_wc_id, name := name } : WorkCenter)]
            next_wc_id := db.next_wc_id + 1 }
        name ({ id := db.next_wc_id, name := name } : WorkCenter) hfil1
      have hiter := iterate_get_or_create_wc_fixed _ name _ hfix m
      refine ⟨?_, ⟨({ id := db.next_wc_id, name := name } : WorkCenter), ?_⟩⟩
      · simp [iterate_get_or_create_work_center, hstep, hiter, hfil1]
      · simp [iterate_get_or_create_work_center, hstep, hiter, List.replicate_succ]
    · obtain ⟨w, hwsing⟩ := List.length_eq_one.mp h1
      have hfix := get_or_create_wc_of_filter_singleton db name w hwsing
      have hiter := iterate_get_or_create_wc_fixed db name w hfix m
      refine ⟨?_, ⟨w, ?_⟩⟩
      · simp [iterate_get_or_create_work_center, hfix, hiter, hwsing]
      · simp [iterate_get_or_create_work_center, hfix, hiter, List.replicate_succ]

/-- Witness for C8: two repeated calls on the empty store. -/
theorem C8_get_or_create_dedup_witness :
    ((DB.empty.brigade.filter (fun x => x.name == "Бригада 1")).length ≤ 1
      ∧ (DB.empty.work_centers.filter (fun x => x.name == "Бригада 1")).length ≤ 1
      ∧ 1 ≤ 2)
    ∧ ((((iterate_get_or_create_brigade DB.empty "Бригада 1" 2).2).brigade.filter
          (fun x => x.name == "Бригада 1")).length = 1
        ∧ ∃ b0 : Brigade, (iterate_get_or_create_brigade DB.empty "Бригада 1" 2).1
            = List.replicate 2 b0)
    ∧ ((((iterate_get_or_create_work_center DB.empty "Бригада 1" 2).2).work_centers.filter
          (fun x => x.name == "Бригада 1")).length = 1
        ∧ ∃ w0 : WorkCenter, (iterate_get_or_create_work_center DB.empty "Бригада 1" 2).1
            = List.replicate 2 w0) :=
  ⟨⟨by decide, by decide, by decide⟩,
   (C8_get_or_create_dedup DB.empty "Бригада 1" 2 (by decide) (by decide) (by decide)).1,
   (C8_get_or_create_dedup DB.empty "Бригада 1" 2 (by decide) (by decide) (by decide)).2⟩

/-! ### Task creation (src/app/repository/task_repo.py, src/app/services/task_service.py) -/

/-- Request schema `ProductCreate` (src/app/schemas/product.py): all three
fields are client-supplied, `is_aggregated` defaulting to false only when the
client omits it. -/
structure ProductCreate where
  nomenclature : String
  ekn_code : String
  is_aggregated : Bool
deriving Repr, DecidableEq

/-- Request schema `BrigadeCreate` (src/app/schemas/brigade.py). -/
structure BrigadeCreate where
  name : String
deriving Repr, DecidableEq

/-- Request schema `WorkCenterCreate` (src/app/schemas/wc.py). -/
structure WorkCenterCreate where
  name : String
deriving Repr, DecidableEq

/-- Request schema `TaskCreate` (src/app/schemas/task.py): the scalar fields
of `TaskBase` plus the optional nested product list, brigade and work
center. -/
structure TaskCreate where
  status_close : Bool
  task_description : Option String
  shift : Option String
  shift_start : Nat
  shift_end : Nat
  batch_number : Int
  batch_date : Nat
  product : Option (List ProductCreate)
  brigade : Option BrigadeCreate
  work_center : Option WorkCenterCreate
deriving Repr, DecidableEq

/-- Transaction rollback at an operation boundary: when the body ends in an
exception, the store reverts to the state at entry (the `async with
self._transaction()` context of the outermost repository call). -/
def withRollback {α : Type} (db : DB) (r : (Except ExcVal α) × DB) :
    (Except ExcVal α) × DB :=
  match r with
  | (.ok a, db2) => (.ok a, db2)
  | (.error e, _) => (.error e, db)

namespace ProductRepository

/-- Source `create_product_data(product, task)` (product_repo.py:29-56): inserts one
product row copying `nomenclature`, `ekn_code` and `is_aggregated` from the
request and tying it to the task.  `aggregated_at` is not passed, so it stays
NULL regardless of the copied `is_aggregated` flag. -/
def create_product_data (db : DB) (product : ProductCreate) (task : Nat) :
    ProductRow × DB :=
  let p : ProductRow :=
    { id := db.next_product_id, nomenclature := some product.nomenclature
      ekn_code := some product.ekn_code, is_aggregated := product.is_aggregated
      aggregated_at := none, task_id := some task }
  (p, { db with products := db.products ++ [p]
                next_product_id := db.next_product_id + 1 })

end ProductRepository

namespace TaskRepository

/-- Source `_add_task(task, brigade, work_center)` (task_repo.py:353-385): inserts
one task row from the scalar fields of the request and the two resolved
foreign keys; `closed_date` is not passed and stays NULL. -/
def _add_task (db : DB) (task : TaskCreate) (brigade : Nat) (work_center : Nat) :
    TaskRow × DB :=
  let db_task : TaskRow :=
    { id := db.next_task_id, status_close := task.status_close, closed_date := none
      task_description := task.task_description, shift := task.shift
      shift_start := task.shift_start, shift_end := task.shift_end
      batch_number := task.batch_number, batch_date := task.batch_date
      brigade_id := brigade, work_center_id := work_center }
  (db_task, { db with tasks := db.tasks ++ [db_task]
                      next_task_id := db.next_task_id + 1 })

/-- Body of `create_task(task_data)` (task_repo.py:49-77): resolve the brigade
and work center by name, insert the task, then insert each nested product.
`task_data.brigade.name` on a missing brigade is an `AttributeError`
(`None` has no attribute `name`), and `for product_data in task_data.product`
with `product = None` is a `TypeError` (`None` is not iterable). -/
def create_task_body (db : DB) (task_data : TaskCreate) :
    (Except ExcVal TaskRow) × DB :=
  match task_data.brigade with
  | none => (.error (.attributeError "name"), db)
  | some bc =>
      let rb := BrigadeRepository.get_or_create_brigade db bc.name
      match task_data.work_center with
      | none => (.error (.attributeError "name"), rb.2)
      | some wcc =>
          let rw := WorkCenterRepository.get_or_create_work_center rb.2 wcc.name
          let ra := _add_task rw.2 task_data rb.1.id rw.1.id
          match task_data.product with
          | none => (.error (.typeError "NoneType"), ra.2)
          | some ps =>
              let db4 := ps.foldl
                (fun d pd => (ProductRepository.create_product_data d pd ra.1.id).2) ra.2
              (.ok ra.1, db4)

/-- Source `create_task(task_data)`: the body inside one transaction scope; on any
exception the transaction rolls back and the exception is re-raised unchanged
(`except Exception as e: logger.error(...); raise`, task_repo.py:75-77). -/
def create_task (db : DB) (task_data : TaskCreate) : (Except ExcVal TaskRow) × DB :=
  withRollback db (create_task_body db task_data)

/-- First loop of `create_tasks` (task_repo.py:98-110): resolve all distinct
brigade and work-center names through get-or-create, caching each name the
first time it is seen. -/
def create_tasks_caches (db : DB) :
    List TaskCreate → List (String × Brigade) → List (String × WorkCenter) →
    (Except ExcVal (List (String × Brigade) × List (String × WorkCenter))) × DB
  | [], bcache, wcache => (.ok (bcache, wcache), db)
  | td :: rest, bcache, wcache =>
      match td.brigade with
      | none => (.error (.attributeError "name"), db)
      | some bc =>
          let step1 : List (String × Brigade) × DB :=
            if (bcache.find? (fun kv => kv.1 == bc.name)).isSome then (bcache, db)
            else
              let r := BrigadeRepository.get_or_create_brigade db bc.name
              (bcache ++ [(bc.name, r.1)], r.2)
          match td.work_center with
          | none => (.error (.attributeError "name"), step1.2)
          | some wcc =>
              let step2 : List (String × WorkCenter) × DB :=
                if (wcache.find? (fun kv => kv.1 == wcc.name)).isSome then (wcache, step1.2)
                else
                  let r := WorkCenterRepository.get_or_create_work_center step1.2 wcc.name
                  (wcache ++ [(wcc.name, r.1)], r.2)
              create_tasks_caches step2.2 rest step1.1 step2.1

/-- Second loop of `create_tasks` (task_repo.py:113-122): insert a task row
per request, looking the resolved brigade and work center up in the caches
(a missing key would be a `KeyError`). -/
def create_tasks_rows (db : DB) (bcache : List (String × Brigade))
    (wcache : List (String × WorkCenter)) :
    List TaskCreate → (Except ExcVal (List TaskRow)) × DB
  | [] => (.ok [], db)
  | td :: rest =>
      match td.brigade with
      | none => (.error (.attributeError "name"), db)
      | some bc =>
          match td.work_center with
          | none => (.error (.attributeError "name"), db)
          | some wcc =>
              match bcache.find? (fun kv => kv.1 == bc.name) with
              | none => (.error (.keyError bc.name), db)
              | some kb =>
                  match wcache.find? (fun kv => kv.1 == wcc.name) with
                  | none => (.error (.keyError wcc.name), db)
                  | some kw =>
                      let ra := _add_task db td kb.2.id kw.2.id
                      match create_tasks_rows ra.2 bcache wcache rest with
                      | (.ok ts, db2) => (.ok (ra.1 :: ts), db2)
                      | (.error e, db2) => (.error e, db2)

/-- Third loop of `create_tasks` (task_repo.py:127-137): for each created
task whose request carries a truthy product list (`if task_data.product:` —
both `None` and the empty list are falsy), insert the nested products. -/
def create_tasks_products (db : DB) : List (TaskCreate × TaskRow) → DB
  | [] => db
  | (td, t) :: rest =>
      match td.product with
      | none => create_tasks_products db rest
      | some [] => create_tasks_products db rest
      | some ps =>
          create_tasks_products
            (ps.foldl (fun d pd => (ProductRepository.create_product_data d pd t.id).2) db)
            rest

/-- Source `create_tasks(tasks_data)` (task_repo.py:79-143): the three loops above
inside one transaction scope; on any exception the transaction rolls back and
the exception is re-raised unchanged. -/
def create_tasks (db : DB) (tasks_data : List TaskCreate) :
    (Except ExcVal (List TaskRow)) × DB :=
  withRollback db (
    match create_tasks_caches db tasks_data [] [] with
    | (.error e, db1) => (.error e, db1)
    | (.ok (bcache, wcache), db1) =>
        match create_tasks_rows db1 bcache wcache tasks_data with
        | (.error e, db2) => (.error e, db2)
        | (.ok ts, db2) =>
            (.ok ts, create_tasks_products db2 (tasks_data.zip ts)))

end TaskRepository

namespace TaskService

/-- The validation loop of `TaskService.create_batch`
(task_service.py:53-60): walk the requests in order and raise
`ValidationError` at the first one whose `shift_start` is not strictly before
`shift_end`.  (`if not task.shift_start or not task.shift_end` never fires:
the schema makes both fields mandatory datetimes, which are always truthy.) -/
def validate_shifts : List TaskCreate → Option ExcVal
  | [] => none
  | td :: rest =>
      if td.shift_start ≥ td.shift_end then
        some (callValidationError
          [.str "Дата начала смены должна быть раньше даты окончания"])
      else validate_shifts rest

/-- Source `TaskService.create_batch(tasks_data)` (task_service.py:31-66): reject an
empty list, validate every entry's shift interval, then delegate to
`create_tasks`.  The final `except Exception: raise` re-raises unchanged. -/
def create_batch (db : DB) (tasks_data : List TaskCreate) :
    (Except ExcVal (List TaskRow)) × DB :=
  if tasks_data.isEmpty then
    (.error (callValidationError [.str "Список задач не может быть пустым"]), db)
  else
    match validate_shifts tasks_data with
    | some e => (.error e, db)
    | none => TaskRepository.create_tasks db tasks_data

/-- Source `TaskService.create(task_data)` (task_service.py:68-87): delegates to
`create_task` with no validation of its own; any exception is wrapped into
`ValidationError` (one positional argument — a legal call). -/
def create (db : DB) (task_data : TaskCreate) : (Except ExcVal TaskRow) × DB :=
  match TaskRepository.create_task db task_data with
  | (.ok task, db1) => (.ok task, db1)
  | (.error _, db1) =>
      (.error (callValidationError [.str "Ошибка создания задачи"]), db1)

end TaskService

/-- A single-task creation request whose shift interval is reversed
(`shift_start = 20 ≥ shift_end = 8`). -/
def tdReversedShift : TaskCreate :=
  { status_close := false, task_description := none, shift := none
    shift_start := 20, shift_end := 8, batch_number := 123, batch_date := 5
    product := some [{ nomenclature := "Изделие 1", ekn_code := "EKN123"
                       is_aggregated := false }]
    brigade := some { name := "Бригада 1" }
    work_center := some { name := "РЦ 1" } }

/-- Counterexample to claim C4 as stated: the single-task create operation
accepts a request with `shift_start >= shift_end` — it returns the created
task and persists the row (`TaskService.create` performs no shift-interval
validation; only `create_batch` does). -/
theorem C4_single_create_skips_shift_validation :
    (TaskService.create DB.empty tdReversedShift).1
      = .ok { id := 1, status_close := false, closed_date := none
              task_description := none, shift := none, shift_start := 20
              shift_end := 8, batch_number := 123, batch_date := 5
              brigade_id := 1, work_center_id := 1 }
    ∧ ((TaskService.create DB.empty tdReversedShift).2).tasks.length = 1 :=
  ⟨rfl, rfl⟩

/-- An entry of a list is reached by `validate_shifts` unless an earlier entry
already fails, so a list containing a reversed interval always yields a
`ValidationError`. -/
theorem validate_shifts_of_bad_entry :
    ∀ (l : List TaskCreate), (∃ td ∈ l, td.shift_start ≥ td.shift_end) →
      ∃ m, TaskService.validate_shifts l = some (.validationError m none) := by
  intro l
  induction l with
  | nil => rintro ⟨td, h, _⟩; cases h
  | cons a rest ih =>
      rintro ⟨td, hmem, hge⟩
      by_cases ha : a.shift_start ≥ a.shift_end
      · exact ⟨.str "Дата начала смены должна быть раньше даты окончания",
          by simp [TaskService.validate_shifts, ha, callValidationError]⟩
      · rcases List.mem_cons.mp hmem with rfl | hrest
        · exact absurd hge ha
        · obtain ⟨m, hm⟩ := ih ⟨td, hrest, hge⟩
          exact ⟨m, by simp [TaskService.validate_shifts, ha, hm]⟩

/-- Inserting products does not touch the `tasks` table. -/
theorem foldl_create_product_data_tasks (ps : List ProductCreate) (tid : Nat) :
    ∀ d : DB,
      (ps.foldl (fun d pd => (ProductRepository.create_product_data d pd tid).2) d).tasks
        = d.tasks := by
  induction ps with
  | nil => intro d; rfl
  | cons p rest ih => intro d; rw [List.foldl_cons, ih]; rfl

/-- A single-task create with brigade, work center and product list supplied
always succeeds: the created row is persisted with the request's shift
interval, whatever that interval is. -/
theorem create_full_request_ok (db : DB) (td : TaskCreate)
    (bc : BrigadeCreate) (wcc : WorkCenterCreate) (ps : List ProductCreate)
    (hb : td.brigade = some bc) (hw : td.work_center = some wcc)
    (hp : td.product = some ps) :
    ∃ t db2, TaskService.create db td = (.ok t, db2)
      ∧ t ∈ db2.tasks ∧ t.shift_start = td.shift_start ∧ t.shift_end = td.shift_end := by
  cases td with
  | mk sc tdesc sh ss se bn bd prod brig wcf =>
      cases hb; cases hw; cases hp
      refine ⟨_, _, rfl, ?_, rfl, rfl⟩
      rw [foldl_create_product_data_tasks]
      simp [TaskRepository._add_task]

/-- Claim C4, amended: every entry of a batch create is validated — if any
entry has `shift_start >= shift_end` the whole batch fails with
`ValidationError` before any repository call, and no row is persisted; the
single-task create operation, however, performs no such validation: with a
brigade, a work center and a product list supplied it succeeds and persists
the task row even when `shift_start >= shift_end`. -/
theorem C4_shift_validation_amended (db : DB) (tasks_data : List TaskCreate)
    (td : TaskCreate) (bc : BrigadeCreate) (wcc : WorkCenterCreate)
    (ps : List ProductCreate)
    (hne : tasks_data ≠ [])
    (hbad : ∃ t ∈ tasks_data, t.shift_start ≥ t.shift_end)
    (hb : td.brigade = some bc) (hw : td.work_center = some wcc)
    (hp : td.product = some ps) (hts : td.shift_start ≥ td.shift_end) :
    (∃ m, TaskService.create_batch db tasks_data = (.error (.validationError m none), db))
    ∧ (∃ t db2, TaskService.create db td = (.ok t, db2)
        ∧ t ∈ db2.tasks ∧ t.shift_start = td.shift_start ∧ t.shift_end = td.shift_end) := by
  constructor
  · obtain ⟨m, hm⟩ := validate_shifts_of_bad_entry tasks_data hbad
    exact ⟨m, by simp [TaskService.create_batch, List.isEmpty_iff, hne, hm]⟩
  · exact create_full_request_ok db td bc wcc ps hb hw hp

/-- Witness for C4 (amended): the one-element batch `[tdReversedShift]` is
rejected with `ValidationError` and the store stays empty, while the single
create on the same request succeeds. -/
theorem C4_shift_validation_amended_witness :
    (∃ m, TaskService.create_batch DB.empty [tdReversedShift]
        = (.error (.validationError m none), DB.empty))
    ∧ (∃ t db2, TaskService.create DB.empty tdReversedShift = (.ok t, db2)
        ∧ t ∈ db2.tasks ∧ t.shift_start = tdReversedShift.shift_start
        ∧ t.shift_end = tdReversedShift.shift_end) :=
  C4_shift_validation_amended DB.empty [tdReversedShift] tdReversedShift
    { name := "Бригада 1" } { name := "РЦ 1" }
    [{ nomenclature := "Изделие 1", ekn_code := "EKN123", is_aggregated := false }]
    (by decide) ⟨tdReversedShift, by decide, by decide⟩
    (by decide) (by decide) (by decide) (by decide)

/-! ### ProductRepository.update_task_products (src/app/repository/product_repo.py:58-96) -/

/-- One element of a `products_data` list as Python sees it: either a dict —
whose "nomenclature" and "ekn_code" keys may each be absent (`none`), in which
case `dict.get` yields `None` — or a value of any other type. -/
inductive PEntry where
  | dict (nomenclature : Option String) (ekn_code : Option String)
  | nondict
deriving Repr, DecidableEq

/-- The `isinstance(product_data, dict)` test of product_repo.py:80. -/
def PEntry.isDict : PEntry → Bool
  | .dict _ _ => true
  | .nondict => false

namespace ProductRepository

/-- The creation loop of `update_task_products` (product_repo.py:78-88): each
dict entry becomes a fresh product row for the task, with absent keys stored
as NULL; any non-dict entry is skipped.  Returns the final store and the
`new_products` list in order. -/
def update_task_products_loop (db : DB) (task_id : Nat) :
    List PEntry → DB × List ProductRow
  | [] => (db, [])
  | .nondict :: rest => update_task_products_loop db task_id rest
  | .dict n e :: rest =>
      let p : ProductRow :=
        { id := db.next_product_id, nomenclature := n, ekn_code := e
          is_aggregated := false, aggregated_at := none, task_id := some task_id }
      let r := update_task_products_loop
        { db with products := db.products ++ [p]
                  next_product_id := db.next_product_id + 1 } task_id rest
      (r.1, p :: r.2)

/-- Source `update_task_products(task_id, products_data)`: delete every product row
of the task, then run the creation loop and return `new_products`. -/
def update_task_products (db : DB) (task_id : Nat) (products_data : List PEntry) :
    (Except ExcVal (List ProductRow)) × DB :=
  let db1 : DB :=
    { db with products := db.products.filter (fun p => !(p.task_id == some task_id)) }
  let r := update_task_products_loop db1 task_id products_data
  (.ok r.2, r.1)

end ProductRepository

/-- The creation loop leaves previously present rows in place and appends its
new rows at the end. -/
theorem update_task_products_loop_products (task_id : Nat) :
    ∀ (es : List PEntry) (db : DB),
      ((ProductRepository.update_task_products_loop db task_id es).1).products
        = db.products ++ (ProductRepository.update_task_products_loop db task_id es).2 := by
  intro es
  induction es with
  | nil => intro db; simp [ProductRepository.update_task_products_loop]
  | cons e rest ih =>
      intro db
      cases e with
      | nondict => simpa [ProductRepository.update_task_products_loop] using ih db
      | dict n k =>
          simp only [ProductRepository.update_task_products_loop]
          rw [ih]
          simp

/-- Every row created by the loop is unaggregated, has no aggregation
timestamp, and belongs to the given task. -/
theorem update_task_products_loop_rows (task_id : Nat) :
    ∀ (es : List PEntry) (db : DB) (q : ProductRow),
      q ∈ (ProductRepository.update_task_products_loop db task_id es).2 →
        q.is_aggregated = false ∧ q.aggregated_at = none ∧ q.task_id = some task_id := by
  intro es
  induction es with
  | nil => intro db q h; simp [ProductRepository.update_task_products_loop] at h
  | cons e rest ih =>
      intro db q h
      cases e with
      | nondict =>
          exact ih _ q (by simpa [ProductRepository.update_task_products_loop] using h)
      | dict n k =>
          simp only [ProductRepository.update_task_products_loop, List.mem_cons] at h
          rcases h with rfl | h
          · exact ⟨rfl, rfl, rfl⟩
          · exact ih _ q h

/-- The created rows carry exactly the (possibly absent) "nomenclature" and
"ekn_code" values of the dict entries, in order; non-dict entries contribute
nothing. -/
theorem update_task_products_loop_fields (task_id : Nat) :
    ∀ (es : List PEntry) (db : DB),
      ((ProductRepository.update_task_products_loop db task_id es).2).map
          (fun q => (q.nomenclature, q.ekn_code))
        = es.filterMap (fun e => match e with
            | .dict n k => some (n, k)
            | .nondict => none) := by
  intro es
  induction es with
  | nil => intro db; simp [ProductRepository.update_task_products_loop]
  | cons e rest ih =>
      intro db
      cases e with
      | nondict => simpa [ProductRepository.update_task_products_loop] using ih db
      | dict n k => simp [ProductRepository.update_task_products_loop, ih]

/-- Filtering twice by the same predicate filters once. -/
theorem filter_filter_self {α : Type} (p : α → Bool) (l : List α) :
    (l.filter p).filter p = l.filter p := by
  induction l with
  | nil => rfl
  | cons a t ih =>
      by_cases h : p a
      · rw [List.filter_cons_of_pos h, List.filter_cons_of_pos h, ih]
      · rw [List.filter_cons_of_neg (by simpa using h), ih]

/-- A store with one task (id 1) owning one product ("EKN123"). -/
def dbProdReplace : DB :=
  { DB.empty with
    tasks := [{ id := 1, status_close := false, closed_date := none
                task_description := none, shift := none, shift_start := 8
                shift_end := 20, batch_number := 123, batch_date := 5
                brigade_id := 1, work_center_id := 1 }]
    next_task_id := 2
    products := [{ id := 1, nomenclature := some "Изделие 1", ekn_code := some "EKN123"
                   is_aggregated := false, aggregated_at := none, task_id := some 1 }]
    next_product_id := 2 }

/-- Counterexample to claim C7 as stated: an entry that is a dict missing
every required field is not skipped — `update_task_products` inserts it as a
fresh row with NULL `nomenclature` and `ekn_code`, so the task ends with one
attached product where the claim predicts zero. -/
theorem C7_missing_fields_entry_is_inserted :
    ((ProductRepository.update_task_products dbProdReplace 1 [PEntry.dict none none]).2).products
      = [{ id := 2, nomenclature := none, ekn_code := none
           is_aggregated := false, aggregated_at := none, task_id := some 1 }]
    ∧ (((ProductRepository.update_task_products dbProdReplace 1
          [PEntry.dict none none]).2).products.filter
        (fun p => p.task_id == some 1)).length = 1 :=
  ⟨rfl, rfl⟩

/-- Claim C7, amended: `update_task_products(task_id, products_data)` first
deletes every product row of the task and then inserts the dict entries
fresh — a dict entry missing fields is inserted with those fields NULL, and
only entries that are not dicts are silently skipped; products of other tasks
are untouched; `update_task_products(task_id, [])` leaves zero products
attached to the task. -/
theorem C7_update_task_products_amended (db : DB) (task_id : Nat)
    (entries : List PEntry) :
    (((ProductRepository.update_task_products db task_id entries).2).products.filter
        (fun p => !(p.task_id == some task_id))
      = db.products.filter (fun p => !(p.task_id == some task_id)))
    ∧ ((((ProductRepository.update_task_products db task_id entries).2).products.filter
        (fun p => p.task_id == some task_id)).map (fun q => (q.nomenclature, q.ekn_code))
      = entries.filterMap (fun e => match e with
          | .dict n k => some (n, k)
          | .nondict => none))
    ∧ (entries = [] →
        ((ProductRepository.update_task_products db task_id entries).2).products.filter
          (fun p => p.task_id == some task_id) = [])
    ∧ (ProductRepository.update_task_products db task_id entries).1
      = .ok (((ProductRepository.update_task_products db task_id entries).2).products.filter
          (fun p => p.task_id == some task_id)) := by
  have hsplit : ((ProductRepository.update_task_products db task_id entries).2).products
      = db.products.filter (fun p => !(p.task_id == some task_id))
        ++ (ProductRepository.update_task_products_loop
            { db with products := db.products.filter (fun p => !(p.task_id == some task_id)) }
            task_id entries).2 :=
    update_task_products_loop_products task_id entries _
  have hrows := update_task_products_loop_rows task_id entries
    { db with products := db.products.filter (fun p => !(p.task_id == some task_id)) }
  have hkeepNone :
      ((ProductRepository.update_task_products_loop
          { db with products := db.products.filter (fun p => !(p.task_id == some task_id)) }
          task_id entries).2).filter (fun p => !(p.task_id == some task_id)) = [] := by
    apply List.filter_eq_nil_iff.mpr
    intro q hq
    have := (hrows q hq).2.2
    simp [this]
  have hkeepAll :
      ((ProductRepository.update_task_products_loop
          { db with products := db.products.filter (fun p => !(p.task_id == some task_id)) }
          task_id entries).2).filter (fun p => p.task_id == some task_id)
        = (ProductRepository.update_task_products_loop
            { db with products := db.products.filter (fun p => !(p.task_id == some task_id)) }
            task_id entries).2 := by
    apply List.filter_eq_self.mpr
    intro q hq
    have := (hrows q hq).2.2
    simp [this]
  have hdropOld :
      (db.products.filter (fun p => !(p.task_id == some task_id))).filter
          (fun p => p.task_id == some task_id) = [] := by
    apply List.filter_eq_nil_iff.mpr
    intro q hq
    have := (List.mem_filter.mp hq).2
    simp at this
    simp [this]
  refine ⟨?_, ?_, ?_, ?_⟩
  · rw [hsplit, List.filter_append, filter_filter_self, hkeepNone, List.append_nil]
  · rw [hsplit, List.filter_append, hdropOld, hkeepAll, List.nil_append]
    exact update_task_products_loop_fields task_id entries _
  · intro he
    subst he
    rw [hsplit]
    simp [ProductRepository.update_task_products_loop, hdropOld]
  · rw [hsplit, List.filter_append, hdropOld, hkeepAll, List.nil_append]
    rfl

/-- Witness for C7 (amended): the concrete replace of `dbProdReplace`'s
single product by one dict entry and, separately, by the empty list. -/
theorem C7_update_task_products_amended_witness :
    (((ProductRepository.update_task_products dbProdReplace 1
          [PEntry.dict (some "Изделие 2") none]).2).products.filter
        (fun p => !(p.task_id == some 1))
      = dbProdReplace.products.filter (fun p => !(p.task_id == some 1)))
    ∧ ((((ProductRepository.update_task_products dbProdReplace 1
          [PEntry.dict (some "Изделие 2") none]).2).products.filter
        (fun p => p.task_id == some 1)).map (fun q => (q.nomenclature, q.ekn_code))
      = [(some "Изделие 2", none)])
    ∧ (((ProductRepository.update_task_products dbProdReplace 1 []).2).products.filter
        (fun p => p.task_id == some 1) = []) :=
  ⟨(C7_update_task_products_amended dbProdReplace 1
      [PEntry.dict (some "Изделие 2") none]).1,
   (C7_update_task_products_amended dbProdReplace 1
      [PEntry.dict (some "Изделие 2") none]).2.1,
   (C7_update_task_products_amended dbProdReplace 1 []).2.2.1 rfl⟩

/-! ### Task update (src/app/repository/task_repo.py:189-272,
src/app/services/task_service.py:104-146) -/

/-- The value found under the "products" key of an update payload: a Python
list of entries, or a value of some other type. -/
inductive PyProducts where
  | list : List PEntry → PyProducts
  | notList : PyProducts
deriving Repr, DecidableEq

/-- The value found under the "brigade" or "work_center" key of an update
payload: a dict whose "name" key may be absent, or a value of some other
type. -/
inductive PyRelation where
  | dict (name : Option String)
  | nondict
deriving Repr, DecidableEq

/-- The `update_dict` produced by `update_data.model_dump(exclude_unset=True)`
(task_service.py:124): each field is `some` exactly when the client set it.
`closed_date` is only ever added by the service itself. -/
structure UpdateDict where
  status_close : Option Bool := none
  closed_date : Option (Option Nat) := none
  task_description : Option String := none
  shift : Option String := none
  shift_start : Option Nat := none
  shift_end : Option Nat := none
  products : Option PyProducts := none
  brigade : Option PyRelation := none
  work_center : Option PyRelation := none
deriving Repr, DecidableEq

/-- Python truthiness of an optional string: `None` and the empty string are
falsy. -/
def strTruthy : Option String → Bool
  | none => false
  | some s => !(s == "")

namespace TaskRepository

/-- Source `get_task_by_id(task_id)` (task_repo.py:145-176): select the first task
row with the given id (eager loading of relations has no observable effect in
the embedding). -/
def get_task_by_id (db : DB) (task_id : Nat) : Option TaskRow :=
  db.tasks.find? (fun t => t.id == task_id)

/-- The scalar-field loop of `update_task` (task_repo.py:207-214): every key
of the update dict that names a task attribute other than "products",
"brigade" and "work_center" is assigned onto the loaded row. -/
def apply_update_scalars (t : TaskRow) (u : UpdateDict) : TaskRow :=
  let t1 := match u.status_close with
    | some v => { t with status_close := v } | none => t
  let t2 := match u.closed_date with
    | some v => { t1 with closed_date := v } | none => t1
  let t3 := match u.task_description with
    | some v => { t2 with task_description := some v } | none => t2
  let t4 := match u.shift with
    | some v => { t3 with shift := some v } | none => t3
  let t5 := match u.shift_start with
    | some v => { t4 with shift_start := v } | none => t4
  match u.shift_end with
    | some v => { t5 with shift_end := v } | none => t5

/-- The `if "products" in update_data` step of `update_task`
(task_repo.py:217-220): when the key is present, delegate to
`update_task_products`; iterating a non-list value raises inside that
method's `try`, whose `except` clause calls `RepositoryException` with one
positional argument — a `TypeError`. -/
def update_task_products_step (db1 : DB) (task_id : Nat) :
    Option PyProducts → Except ExcVal DB
  | none => .ok db1
  | some (.list es) =>
      .ok (ProductRepository.update_task_products db1 task_id es).2
  | some .notList =>
      .error (callRepositoryException [.str "Не удалось обновить продукты задачи"])

/-- Source `_update_task_relations(task, brigade_name, work_center_name)`
(task_repo.py:238-272): re-resolve the truthy names via get-or-create, assign
the resolved ids onto the row, and commit.  Note the leading underscore in
the definition: `update_task` calls `self.update_task_relations(...)` — a
name this class never defines. -/
def _update_task_relations (db : DB) (task : TaskRow)
    (brigade_name : Option String) (work_center_name : Option String) :
    TaskRow × DB :=
  let r1 :=
    if strTruthy brigade_name then
      let rb := BrigadeRepository.get_or_create_brigade db (brigade_name.getD "")
      (({ task with brigade_id := rb.1.id } : TaskRow), rb.2)
    else (task, db)
  let r2 :=
    if strTruthy work_center_name then
      let rw := WorkCenterRepository.get_or_create_work_center r1.2 (work_center_name.getD "")
      (({ r1.1 with work_center_id := rw.1.id } : TaskRow), rw.2)
    else r1
  (r2.1, { r2.2 with tasks := r2.2.tasks.map (fun t => if t.id = task.id then r2.1 else t) })

/-- Source `update_task(task_id, update_data)` (task_repo.py:189-236): load the task
(`TaskNotFoundException` when absent), apply the scalar updates, replace the
product list when the "products" key is present, then — when a truthy brigade
or work-center name is supplied — evaluate `self.update_task_relations(...)`.
`TaskRepository` defines `_update_task_relations` (task_repo.py:238) but no
attribute named `update_task_relations`, so that call raises
`AttributeError`; the `except` clause logs and re-raises it and the
transaction rolls back. -/
def update_task (db : DB) (task_id : Nat) (update_data : UpdateDict) :
    (Except ExcVal TaskRow) × DB :=
  withRollback db (
    match get_task_by_id db task_id with
    | none => (.error (callTaskNotFoundException
        [.str "Задача не найдена"]), db)
    | some task =>
        let task1 := apply_update_scalars task update_data
        let db1 : DB :=
          { db with tasks := db.tasks.map (fun t => if t.id = task.id then task1 else t) }
        match update_task_products_step db1 task_id update_data.products with
        | .error e => (.error e, db)
        | .ok db2 =>
            let brigade_name : Option String :=
              match update_data.brigade with
              | some (.dict n) => n
              | _ => none
            let work_center_name : Option String :=
              match update_data.work_center with
              | some (.dict n) => n
              | _ => none
            if strTruthy brigade_name || strTruthy work_center_name then
              (.error (.attributeError "update_task_relations"), db)
            else
              (.ok task1, db2))

end TaskRepository

namespace TaskService

/-- The products-validation loop of `TaskService.update`
(task_service.py:133-141): walk the entries in order, raising
`ValidationError` at the first one that is not a dict or that lacks the
"nomenclature" key. -/
def validate_product_entries : List PEntry → Option ExcVal
  | [] => none
  | .nondict :: _ =>
      some (callValidationError [.str "Каждый продукт должен быть словарем"])
  | .dict n _ :: rest =>
      if n.isSome then validate_product_entries rest
      else some (callValidationError [.str "В продукте отсутствует поле номенклатура"])

/-- Source `TaskService.update(task_id, update_data)` (task_service.py:104-146):
load the task (`TaskNotFoundException` when absent), stamp or clear
`closed_date` when `status_close` is in the payload, validate the "products"
value (must be a list of dicts each carrying "nomenclature"), then delegate
to the repository's `update_task`. -/
def update (db : DB) (task_id : Nat) (update_data : UpdateDict) (now : Nat) :
    (Except ExcVal TaskRow) × DB :=
  match TaskRepository.get_task_by_id db task_id with
  | none => (.error (callTaskNotFoundException [.str "Задача не найдена"]), db)
  | some _ =>
      let update_dict :=
        match update_data.status_close with
        | some b => { update_data with closed_date := some (if b then some now else none) }
        | none => update_data
      match update_dict.products with
      | some .notList =>
          (.error (callValidationError [.str "Продукты должны быть списком"]), db)
      | some (.list es) =>
          match validate_product_entries es with
          | some e => (.error e, db)
          | none => TaskRepository.update_task db task_id update_dict
      | none => TaskRepository.update_task db task_id update_dict

end TaskService

/-! ### Claim C5: update_task with a new brigade or work-center name -/

/-- A store with one task (id 1) referencing brigade 1 and work center 1. -/
def dbUpd : DB :=
  { DB.empty with
    brigade := [{ id := 1, name := "Бригада 1" }]
    work_centers := [{ id := 1, name := "РЦ 1" }]
    next_brigade_id := 2, next_wc_id := 2
    tasks := [{ id := 1, status_close := false, closed_date := none
                task_description := none, shift := none, shift_start := 8
                shift_end := 20, batch_number := 123, batch_date := 5
                brigade_id := 1, work_center_id := 1 }]
    next_task_id := 2 }

/-- An update payload supplying only a new brigade name. -/
def updNewBrigade : UpdateDict := { brigade := some (.dict (some "Бригада 2")) }

/-- An update payload supplying only a new work-center name. -/
def updNewWorkCenter : UpdateDict := { work_center := some (.dict (some "РЦ 2")) }

/-- Claim C5: an update supplying a new brigade or work-center name was
claimed to resolve it via get-or-create and succeed.  Evaluating the code on
task 1 of `dbUpd`: both at the repository and through the service the call
raises `AttributeError` (the call site names `update_task_relations`, the
method is defined as `_update_task_relations`), the transaction rolls back,
and the store is unchanged. -/
theorem C5_update_with_new_names_raises_AttributeError :
    TaskRepository.update_task dbUpd 1 updNewBrigade
      = (.error (.attributeError "update_task_relations"), dbUpd)
    ∧ TaskService.update dbUpd 1 updNewBrigade 0
      = (.error (.attributeError "update_task_relations"), dbUpd)
    ∧ TaskRepository.update_task dbUpd 1 updNewWorkCenter
      = (.error (.attributeError "update_task_relations"), dbUpd)
    ∧ TaskService.update dbUpd 1 updNewWorkCenter 0
      = (.error (.attributeError "update_task_relations"), dbUpd) :=
  ⟨rfl, rfl, rfl, rfl⟩

/-! ### Claim C10: products validation in TaskService.update -/

/-- A "products" payload the service's validation loop must reject: not a
list, or containing a non-dict entry, or containing a dict entry without the
"nomenclature" key. -/
def products_payload_invalid : Option PyProducts → Bool
  | some .notList => true
  | some (.list es) => es.any (fun e => match e with
      | .nondict => true
      | .dict n _ => !n.isSome)
  | none => false

/-- A list with an offending entry makes the validation loop return a
`ValidationError`. -/
theorem validate_product_entries_of_invalid :
    ∀ es : List PEntry,
      (es.any (fun e => match e with
        | .nondict => true
        | .dict n _ => !n.isSome)) = true →
      ∃ m, TaskService.validate_product_entries es = some (.validationError m none) := by
  intro es
  induction es with
  | nil => intro h; simp at h
  | cons e rest ih =>
      intro h
      cases e with
      | nondict =>
          exact ⟨.str "Каждый продукт должен быть словарем",
            by simp [TaskService.validate_product_entries, callValidationError]⟩
      | dict n k =>
          cases hn : n with
          | none =>
              exact ⟨.str "В продукте отсутствует поле номенклатура",
                by simp [TaskService.validate_product_entries, callValidationError]⟩
          | some s =>
              rw [hn] at h
              simp at h
              obtain ⟨m, hm⟩ := ih (by simpa using h)
              exact ⟨m, by simpa [TaskService.validate_product_entries] using hm⟩

/-- Claim C10: whenever the update payload of `TaskService.update` on an
existing task carries a "products" value that is not a list, or has a
non-dict entry, or has an entry without the "nomenclature" key, the call
raises `ValidationError` before delegating to the repository, and the store —
the task's scalar fields and its product rows included — is unchanged. -/
theorem C10_update_products_validation (db : DB) (task_id : Nat)
    (update_data : UpdateDict) (now : Nat) (t : TaskRow)
    (htask : TaskRepository.get_task_by_id db task_id = some t)
    (hbad : products_payload_invalid update_data.products = true) :
    ∃ m, TaskService.update db task_id update_data now
      = (.error (.validationError m none), db) := by
  obtain ⟨sc, cd, tdsc, shf, ssu, seu, prods, brg, wcn⟩ := update_data
  cases prods with
  | none => simp [products_payload_invalid] at hbad
  | some pv =>
      cases pv with
      | notList =>
          refine ⟨.str "Продукты должны быть списком", ?_⟩
          cases sc <;> simp [TaskService.update, htask, callValidationError]
      | list es =>
          obtain ⟨m, hm⟩ := validate_product_entries_of_invalid es
            (by simpa [products_payload_invalid] using hbad)
          refine ⟨m, ?_⟩
          cases sc <;> simp [TaskService.update, htask, hm]

/-- Witness for C10: on `dbUpd`, a payload whose "products" value is not a
list, one with a non-dict entry, and one with an entry lacking
"nomenclature" are all rejected with `ValidationError` and leave the store
unchanged. -/
theorem C10_update_products_validation_witness :
    (∃ m, TaskService.update dbUpd 1 { products := some .notList } 0
        = (.error (.validationError m none), dbUpd))
    ∧ (∃ m, TaskService.update dbUpd 1
          { products := some (.list [PEntry.nondict]) } 0
        = (.error (.validationError m none), dbUpd))
    ∧ (∃ m, TaskService.update dbUpd 1
          { products := some (.list [PEntry.dict none (some "EKN123")]) } 0
        = (.error (.validationError m none), dbUpd)) :=
  ⟨C10_update_products_validation dbUpd 1 { products := some .notList } 0 _ rfl rfl,
   C10_update_products_validation dbUpd 1
     { products := some (.list [PEntry.nondict]) } 0 _ rfl rfl,
   C10_update_products_validation dbUpd 1
     { products := some (.list [PEntry.dict none (some "EKN123")]) } 0 _ rfl rfl⟩

/-! ### Claim C6: the aggregation-state invariant -/

/-- The per-row aggregation invariant: `is_aggregated` is true exactly when
`aggregated_at` is set. -/
def ProductRow.aggStateOk (p : ProductRow) : Bool :=
  p.is_aggregated == p.aggregated_at.isSome

/-- The aggregation invariant over the whole store. -/
def DB.aggInvariant (db : DB) : Prop :=
  ∀ p ∈ db.products, p.aggStateOk = true

instance (db : DB) : Decidable (DB.aggInvariant db) :=
  inferInstanceAs (Decidable (∀ p ∈ db.products, p.aggStateOk = true))

/-- A creation request whose client set `is_aggregated` to true. -/
def pcAggregatedTrue : ProductCreate :=
  { nomenclature := "Изделие 1", ekn_code := "EKN123", is_aggregated := true }

/-- Counterexample to claim C6 as stated: `create_product_data` copies the
client-supplied `is_aggregated` flag but never sets `aggregated_at`, so a
request with `is_aggregated = true` persists a product with
`is_aggregated = true` and `aggregated_at` NULL — the invariant is broken by
one of the listed operations. -/
theorem C6_create_product_data_breaks_invariant :
    ((ProductRepository.create_product_data DB.empty pcAggregatedTrue 1).2).products
      = [{ id := 1, nomenclature := some "Изделие 1", ekn_code := some "EKN123"
           is_aggregated := true, aggregated_at := none, task_id := some 1 }]
    ∧ ¬ DB.aggInvariant (ProductRepository.create_product_data DB.empty pcAggregatedTrue 1).2 :=
  ⟨rfl, by decide⟩

/-- One `add_products_to_batches` iteration preserves the aggregation
invariant: a created row is unaggregated with NULL timestamp, and a
reassignment touches only `task_id`. -/
theorem add_products_step_aggInvariant (db : DB) (e : ProductRepository.BatchEntry)
    (h : DB.aggInvariant db) :
    DB.aggInvariant (ProductRepository.add_products_step db e) := by
  unfold ProductRepository.add_products_step
  split
  · exact h
  · split
    · exact h
    · split
      · intro q hq
        rcases List.mem_append.mp hq with hq | hq
        · exact h q hq
        · simp only [List.mem_singleton] at hq
          subst hq
          rfl
      · rename_i task product hfp
        intro q hq
        rcases List.mem_map.mp hq with ⟨p, hp, rfl⟩
        by_cases hid : p.id = product.id
        · have hpmem := List.mem_of_find?_eq_some hfp
          have := h product hpmem
          simpa [hid, ProductRow.aggStateOk] using this
        · simpa [hid] using h p hp

/-- The loop of `add_products_to_batches` preserves the aggregation
invariant. -/
theorem add_products_loop_aggInvariant :
    ∀ (entries : List ProductRepository.BatchEntry) (db : DB),
      DB.aggInvariant db →
        DB.aggInvariant (ProductRepository.add_products_loop db entries) := by
  intro entries
  induction entries with
  | nil => intro db h; exact h
  | cons e rest ih =>
      intro db h
      exact ih _ (add_products_step_aggInvariant db e h)

/-- The `try` body of `aggregate_product` preserves the aggregation
invariant: on success `is_aggregated` and `aggregated_at` are set together,
on failure the store is untouched. -/
theorem aggregate_product_body_aggInvariant (db : DB) (task_id : Nat)
    (ekn_code : String) (now : Nat) (h : DB.aggInvariant db) :
    DB.aggInvariant (ProductRepository.aggregate_product_body db task_id ekn_code now).2 := by
  unfold ProductRepository.aggregate_product_body
  cases hfp : db.products.find? (fun p => p.ekn_code == some ekn_code) with
  | none => exact h
  | some product =>
      by_cases h1 : product.task_id ≠ some task_id
      · simpa [h1] using h
      · by_cases h2 : product.is_aggregated
        · simpa [h1, h2] using h
        · simp only [h1, h2, if_false, ite_false, if_neg, Bool.false_eq_true]
          intro q hq
          have hq2 : q ∈ db.products.map (fun p =>
              if p.id = product.id then
                { product with is_aggregated := true, aggregated_at := some now }
              else p) := by
            simpa [h1, h2] using hq
          rcases List.mem_map.mp hq2 with ⟨p, hp, rfl⟩
          by_cases hid : p.id = product.id
          · simp [hid, ProductRow.aggStateOk]
          · simpa [hid] using h p hp

/-- Claim C6, amended: `update_task_products`, `add_products_to_batches` and
`aggregate_product` all preserve the invariant that `is_aggregated` is true
iff `aggregated_at` is set; `create_product_data` preserves it only for
requests whose `is_aggregated` flag is false — it copies the flag without
setting `aggregated_at`, so a request with the flag true breaks the
invariant. -/
theorem C6_aggregation_invariant_amended (db : DB) (hinv : DB.aggInvariant db) :
    (∀ (pc : ProductCreate) (tid : Nat), pc.is_aggregated = false →
        DB.aggInvariant (ProductRepository.create_product_data db pc tid).2)
    ∧ (∀ (tid : Nat) (es : List PEntry),
        DB.aggInvariant (ProductRepository.update_task_products db tid es).2)
    ∧ (∀ entries : List ProductRepository.BatchEntry,
        DB.aggInvariant (ProductRepository.add_products_to_batches db entries).2)
    ∧ (∀ (tid : Nat) (ekn : String) (now : Nat),
        DB.aggInvariant (ProductRepository.aggregate_product db tid ekn now).2) := by
  refine ⟨?_, ?_, ?_, ?_⟩
  · intro pc tid hfalse q hq
    rcases List.mem_append.mp hq with hq | hq
    · exact hinv q hq
    · simp only [List.mem_singleton] at hq
      subst hq
      simp [ProductRow.aggStateOk, hfalse]
  · intro tid es q hq
    have hq2 : q ∈ ({ db with
        products := db.products.filter (fun p => !(p.task_id == some tid)) } : DB).products
        ++ (ProductRepository.update_task_products_loop
            { db with products := db.products.filter (fun p => !(p.task_id == some tid)) }
            tid es).2 := by
      rw [← update_task_products_loop_products]
      exact hq
    rcases List.mem_append.mp hq2 with hq3 | hq3
    · exact hinv q (List.mem_filter.mp hq3).1
    · obtain ⟨ha, hb, _⟩ := update_task_products_loop_rows tid es _ q hq3
      simp [ProductRow.aggStateOk, ha, hb]
  · intro entries
    exact add_products_loop_aggInvariant entries db hinv
  · intro tid ekn now
    unfold ProductRepository.aggregate_product
    cases hb : ProductRepository.aggregate_product_body db tid ekn now with
    | mk res db2 =>
        cases res with
        | ok r =>
            have := aggregate_product_body_aggInvariant db tid ekn now hinv
            rw [hb] at this
            exact this
        | error e => exact hinv

/-- A store with one correctly aggregated product (for the C6 witness). -/
def dbAggInv : DB :=
  { DB.empty with
    tasks := [{ id := 1, status_close := false, closed_date := none
                task_description := none, shift := none, shift_start := 8
                shift_end := 20, batch_number := 123, batch_date := 5
                brigade_id := 1, work_center_id := 1 }]
    next_task_id := 2
    products := [{ id := 1, nomenclature := some "Изделие 1", ekn_code := some "EKN123"
                   is_aggregated := true, aggregated_at := some 50, task_id := some 1 }]
    next_product_id := 2 }

/-- Witness for C6 (amended): on a store satisfying the invariant, each of
the four operations applied at concrete arguments keeps it. -/
theorem C6_aggregation_invariant_amended_witness :
    DB.aggInvariant dbAggInv
    ∧ DB.aggInvariant (ProductRepository.create_product_data dbAggInv
        { nomenclature := "Изделие 2", ekn_code := "EKN124", is_aggregated := false } 1).2
    ∧ DB.aggInvariant (ProductRepository.update_task_products dbAggInv 1
        [PEntry.dict (some "Изделие 2") (some "EKN124"), PEntry.nondict]).2
    ∧ DB.aggInvariant (ProductRepository.add_products_to_batches dbAggInv
        [{ ekn_code := "EKN125", batch_number := 123, batch_date := some 5 }]).2
    ∧ DB.aggInvariant (ProductRepository.aggregate_product dbAggInv 1 "EKN124" 77).2 :=
  ⟨by decide,
   (C6_aggregation_invariant_amended dbAggInv (by decide)).1
     { nomenclature := "Изделие 2", ekn_code := "EKN124", is_aggregated := false } 1 rfl,
   (C6_aggregation_invariant_amended dbAggInv (by decide)).2.1 1
     [PEntry.dict (some "Изделие 2") (some "EKN124"), PEntry.nondict],
   (C6_aggregation_invariant_amended dbAggInv (by decide)).2.2.1
     [{ ekn_code := "EKN125", batch_number := 123, batch_date := some 5 }],
   (C6_aggregation_invariant_amended dbAggInv (by decide)).2.2.2 1 "EKN124" 77⟩

end TaskControlFapi
